import Mathlib

/-!
Verification development for the DMR video-generator pipeline (`src/app.py`).

The program is a single-pass content pipeline: scene segmentation of a story
via a text-completion service, per-scene image/audio asset generation, and
video assembly with optional background music. Below we give a shallow
embedding of its data flow: Python string operations are modelled over
`List Char`, the external services are modelled as oracles returning
`Except String`, and the video composition library is modelled algebraically
(a sub-clip records its image, caption, audio path, and duration; the final
audio is a term describing concatenation / attenuation / mixing).
-/

/-- Python `str.isspace` characters relevant to `str.strip()` (ASCII subset:
space, tab, linefeed, carriage return, vertical tab, form feed). -/
def pyIsSpace (c : Char) : Bool :=
  c = ' ' || c = '\t' || c = '\n' || c = '\r' || c = Char.ofNat 11 || c = Char.ofNat 12

/-- Python `str.strip()` on a character list: drop whitespace from both ends. -/
def pyStrip (s : List Char) : List Char :=
  ((s.dropWhile pyIsSpace).reverse.dropWhile pyIsSpace).reverse

/-- Python `str.split(sep)` for a one-character separator: split on every
occurrence of `sep`, keeping empty pieces. Always returns at least one
piece (`"".split(sep) == [""]` in Python). -/
def pySplit (sep : Char) : List Char → List (List Char)
  | [] => [[]]
  | c :: cs =>
    if c = sep then
      [] :: pySplit sep cs
    else
      match pySplit sep cs with
      | [] => [[c]]
      | l :: ls => (c :: l) :: ls

/-- `content.strip()` lifted to `String` (app.py line 35). -/
def pyStripS (s : String) : String := ⟨pyStrip s.data⟩

/-- `content.strip().split('\n')` yields these lines (app.py line 35). -/
def pySplitLinesS (s : String) : List String :=
  (pySplit '\n' s.data).map fun l => ⟨l⟩

/-- Scene segmentation, app.py lines 35-37: split the completion response
content into lines after stripping; if fewer than 3 lines result, fall back
to the single original prompt text. -/
def segmentScenes (promptText content : String) : List String :=
  let scenesText := pySplitLinesS (pyStripS content)
  if scenesText.length < 3 then [promptText] else scenesText

/-- `os.path.join(temp_dir, name)` for a non-absolute `name` and a `temp_dir`
without a trailing separator (the shape produced by `tempfile.TemporaryDirectory`). -/
def osPathJoin (dir name : String) : String := dir ++ "/" ++ name

/-- The per-scene record built by the asset-generation loop (app.py lines
43-69): the caption is used both as the image prompt and as the text-to-speech
input, and the two artifact paths are keyed by the scene index. -/
structure SceneAsset where
  prompt : String
  ttsText : String
  imgPath : String
  audioPath : String
deriving DecidableEq, Repr

/-- A sub-clip of the assembled video (app.py lines 74-84): the scene image
shown for the duration of the scene audio, with the caption overlaid and the
scene audio attached. Durations are modelled as rationals. -/
structure SubClip where
  image : String
  caption : String
  audioPath : String
  duration : ℚ
deriving DecidableEq, Repr

/-- The audio layer of the final video, as an algebraic term:
`concatNarration` is the audio of `concatenate_videoclips` (the per-scene
narration tracks back-to-back); `attenuatedLoop` is
`AudioFileClip(p).volumex(f).loop(duration=d)`; `composite` is
`CompositeAudioClip` (simultaneous mixing). -/
inductive AudioTrack
  | concatNarration (paths : List String)
  | attenuatedLoop (path : String) (volumeFactor : ℚ) (loopDuration : ℚ)
  | composite (tracks : List AudioTrack)

/-- The assembled final video: the ordered sub-clips and the final audio. -/
structure FinalVideo where
  clips : List SubClip
  audio : AudioTrack

/-- The `zip(image_files, audio_files, subtitles)` loop of `create_video`
(app.py lines 74-84): one sub-clip per zipped triple, stopping at the
shortest list, each clip lasting exactly its audio's duration `dur`. -/
def makeClips (dur : String → ℚ) : List String → List String → List String → List SubClip
  | img :: imgs, aud :: auds, sub :: subs =>
      { image := img, caption := sub, audioPath := aud, duration := dur aud }
        :: makeClips dur imgs auds subs
  | _, _, _ => []

/-- Total duration of a clip list; `concatenate_videoclips` (hard cuts, no
transitions) gives a video of exactly this duration. -/
def totalDuration (clips : List SubClip) : ℚ := (clips.map (·.duration)).sum

/-- `create_video` (app.py lines 72-95): build the per-scene sub-clips,
concatenate them, and, when a music path is given and the file exists, mix in
the music at 10% volume looped to the concatenated duration. `dur` gives each
audio file's duration and `fileExists` models `os.path.exists`. -/
def create_video (dur : String → ℚ) (fileExists : String → Bool)
    (image_files audio_files subtitles : List String)
    (music_path : Option String) : FinalVideo :=
  let clips := makeClips dur image_files audio_files subtitles
  let narration := AudioTrack.concatNarration (clips.map (·.audioPath))
  match music_path with
  | some p =>
    if fileExists p then
      { clips := clips
        audio := AudioTrack.composite
          [narration, AudioTrack.attenuatedLoop p (1 / 10) (totalDuration clips)] }
    else
      { clips := clips, audio := narration }
  | none => { clips := clips, audio := narration }

/-- The external services the pipeline calls, as oracles that either return a
payload or raise (`Except.error` models a Python exception): the chat
completion (returns the response content), the image-generation request
(returns a URL), the plain HTTP fetch of the image bytes, the text-to-speech
request (returns audio bytes), and the final video encoding. -/
structure Services where
  completion : String → Except String String
  imageGen : String → Except String String
  httpGet : String → Except String String
  tts : String → Except String String
  encode : FinalVideo → Except String Unit

/-- One iteration of the asset loop (app.py lines 43-69) for scene index `i`
with caption `sceneText`: request an image with the caption as prompt, fetch
its bytes, synthesize speech from the same caption, and record the two
artifact paths `scene_i.png` / `scene_i.mp3` in the scratch directory. -/
def genSceneAsset (sv : Services) (tempDir : String) (i : Nat) (sceneText : String) :
    Except String SceneAsset :=
  match sv.imageGen sceneText with
  | Except.error e => Except.error e
  | Except.ok url =>
    match sv.httpGet url with
    | Except.error e => Except.error e
    | Except.ok _imgBytes =>
      match sv.tts sceneText with
      | Except.error e => Except.error e
      | Except.ok _audioBytes =>
        Except.ok
          { prompt := sceneText
            ttsText := sceneText
            imgPath := osPathJoin tempDir ("scene_" ++ toString i ++ ".png")
            audioPath := osPathJoin tempDir ("scene_" ++ toString i ++ ".mp3") }

/-- The asset loop over the enumerated scene list, strictly in order; the
first raised error aborts the remaining iterations (no catch, no retry). -/
def genAssetsE (sv : Services) (tempDir : String) :
    List (Nat × String) → Except String (List SceneAsset)
  | [] => Except.ok []
  | p :: rest =>
    match genSceneAsset sv tempDir p.1 p.2 with
    | Except.error e => Except.error e
    | Except.ok a =>
      match genAssetsE sv tempDir rest with
      | Except.error e => Except.error e
      | Except.ok as => Except.ok (a :: as)

/-- `generate_scene_images_and_audio` (app.py lines 26-70): one completion
request, segmentation of its content, then the per-scene asset loop; returns
the image paths, audio paths and subtitles. -/
def generate_scene_images_and_audio (sv : Services) (promptText tempDir : String) :
    Except String (List String × List String × List String) :=
  match sv.completion promptText with
  | Except.error e => Except.error e
  | Except.ok content =>
    match genAssetsE sv tempDir (segmentScenes promptText content).enum with
    | Except.error e => Except.error e
    | Except.ok assets =>
      Except.ok (assets.map (·.imgPath), assets.map (·.audioPath), assets.map (·.ttsText))

/-- The body of the `try` block in the Streamlit run section (app.py lines
107-122): asset generation, then video assembly and encoding. -/
def pipelineE (sv : Services) (dur : String → ℚ) (fileExists : String → Bool)
    (story tempDir : String) (music : Option String) : Except String FinalVideo :=
  match generate_scene_images_and_audio sv story tempDir with
  | Except.error e => Except.error e
  | Except.ok r =>
    let fv := create_video dur fileExists r.1 r.2.1 r.2.2 music
    match sv.encode fv with
    | Except.error e => Except.error e
    | Except.ok _ => Except.ok fv

/-- What the user-facing surface ends up showing for one run: either the
rendered video or a single error message. -/
inductive UIOutcome
  | videoShown (path : String)
  | errorShown (msg : String)
deriving DecidableEq, Repr

/-- The run block (app.py lines 104-125): the whole pipeline runs inside one
`try`; on success the video at `output_video.mp4` is shown, on any exception
the single handler shows `Error: {e}` and nothing else. -/
def runApp (sv : Services) (dur : String → ℚ) (fileExists : String → Bool)
    (story tempDir : String) (music : Option String) : UIOutcome :=
  match pipelineE sv dur fileExists story tempDir music with
  | Except.ok _ => UIOutcome.videoShown (osPathJoin tempDir "output_video.mp4")
  | Except.error e => UIOutcome.errorShown ("Error: " ++ e)

/-- Python truthiness of `st.secrets.get(k)`: `None` and the empty string are
falsy, any other string is truthy. -/
def pyTruthy : Option String → Bool
  | none => false
  | some s => !s.isEmpty

/-- The three configuration values resolved once at process start
(app.py lines 13-15). -/
structure Secrets where
  openaiApiKey : Option String
  elevenlabsApiKey : Option String
  voiceId : Option String

/-- The startup error message (app.py line 18). -/
def secretsErrorMsg : String :=
  "Please add OPENAI_API_KEY, ELEVENLABS_API_KEY, and VOICE_ID to your Streamlit secrets."

/-- Result of the startup credential check (app.py lines 17-19):
`st.error(...)` followed by `st.stop()` halts the script before any run. -/
inductive AppStart
  | halted (msg : String)
  | started
deriving DecidableEq, Repr

/-- The startup check itself: `if not a or not b or not c: error; stop`. -/
def appStartup (s : Secrets) : AppStart :=
  if !pyTruthy s.openaiApiKey || !pyTruthy s.elevenlabsApiKey || !pyTruthy s.voiceId then
    AppStart.halted secretsErrorMsg
  else
    AppStart.started

/-- A whole process execution: either halted at startup, or the pipeline ran
and produced a UI outcome. -/
inductive ProgramResult
  | haltedAtStartup (msg : String)
  | ranPipeline (outcome : UIOutcome)
deriving DecidableEq, Repr

/-- The whole script: startup credential check, then (when a run is
triggered) the pipeline. Note the pipeline part takes no `Secrets` argument:
after startup, no pipeline operation re-checks the credentials. -/
def program (s : Secrets) (sv : Services) (dur : String → ℚ) (fileExists : String → Bool)
    (story tempDir : String) (music : Option String) : ProgramResult :=
  match appStartup s with
  | AppStart.halted m => ProgramResult.haltedAtStartup m
  | AppStart.started => ProgramResult.ranPipeline (runApp sv dur fileExists story tempDir music)

/-- A concrete all-successful service environment, for witnesses. -/
def svOk : Services where
  completion := fun _ => Except.ok "line one\nline two\nline three"
  imageGen := fun p => Except.ok ("https://img.example/" ++ p)
  httpGet := fun _ => Except.ok "imagebytes"
  tts := fun _ => Except.ok "audiobytes"
  encode := fun _ => Except.ok ()

/-- A service environment whose completion request raises, for witnesses. -/
def svCompletionFails : Services where
  completion := fun _ => Except.error "boom"
  imageGen := fun p => Except.ok ("https://img.example/" ++ p)
  httpGet := fun _ => Except.ok "imagebytes"
  tts := fun _ => Except.ok "audiobytes"
  encode := fun _ => Except.ok ()

/-- Python `split` never returns an empty list of pieces. -/
lemma pySplit_ne_nil (sep : Char) (l : List Char) : pySplit sep l ≠ [] := by
  cases l with
  | nil => simp [pySplit]
  | cons c cs =>
    simp only [pySplit]
    split
    · simp
    · split <;> simp

/-- Splitting a string into lines yields at least one line. -/
lemma pySplitLinesS_ne_nil (s : String) : pySplitLinesS s ≠ [] := by
  simp [pySplitLinesS, pySplit_ne_nil]

/-- The segmenter never returns an empty caption list. -/
lemma segmentScenes_ne_nil (p c : String) : segmentScenes p c ≠ [] := by
  simp only [segmentScenes]
  split
  · simp
  · exact pySplitLinesS_ne_nil _

/-- A successful asset-loop iteration returns exactly the record built from
the caption and the index-keyed artifact paths. -/
lemma genSceneAsset_ok (sv : Services) (d : String) (i : Nat) (s : String) (a : SceneAsset)
    (h : genSceneAsset sv d i s = Except.ok a) :
    a = { prompt := s
          ttsText := s
          imgPath := osPathJoin d ("scene_" ++ toString i ++ ".png")
          audioPath := osPathJoin d ("scene_" ++ toString i ++ ".mp3") } := by
  unfold genSceneAsset at h
  cases hi : sv.imageGen s with
  | error e => simp [hi] at h
  | ok url =>
    simp only [hi] at h
    cases hg : sv.httpGet url with
    | error e => simp [hg] at h
    | ok b =>
      simp only [hg] at h
      cases ht : sv.tts s with
      | error e => simp [ht] at h
      | ok ab =>
        simp only [ht, Except.ok.injEq] at h
        exact h.symm

/-- A successful run of the asset loop returns one asset per input pair, in
order, whose prompt and speech text are the caption and whose artifact paths
are keyed by the paired index. -/
lemma genAssetsE_ok_spec (sv : Services) (d : String) :
    ∀ (l : List (Nat × String)) (assets : List SceneAsset),
      genAssetsE sv d l = Except.ok assets →
      assets.map (·.prompt) = l.map Prod.snd
      ∧ assets.map (·.ttsText) = l.map Prod.snd
      ∧ assets.map (·.imgPath)
          = l.map (fun p => osPathJoin d ("scene_" ++ toString p.1 ++ ".png"))
      ∧ assets.map (·.audioPath)
          = l.map (fun p => osPathJoin d ("scene_" ++ toString p.1 ++ ".mp3"))
  | [], assets, h => by
    simp only [genAssetsE, Except.ok.injEq] at h
    subst h
    simp
  | p :: rest, assets, h => by
    unfold genAssetsE at h
    cases ha : genSceneAsset sv d p.1 p.2 with
    | error e => simp [ha] at h
    | ok a =>
      simp only [ha] at h
      cases hr : genAssetsE sv d rest with
      | error e => simp [hr] at h
      | ok as =>
        simp only [hr, Except.ok.injEq] at h
        subst h
        obtain ⟨h1, h2, h3, h4⟩ := genAssetsE_ok_spec sv d rest as hr
        have ha' := genSceneAsset_ok sv d p.1 p.2 a ha
        subst ha'
        simp [h1, h2, h3, h4]

/-- Full characterisation of the `zip` loop of `create_video`: it produces
exactly `min` of the three lengths many clips, aligned with the prefixes of
the three lists, each lasting its audio's duration. -/
lemma makeClips_spec (dur : String → ℚ) :
    ∀ (as bs cs : List String),
      (makeClips dur as bs cs).length = min as.length (min bs.length cs.length)
      ∧ (makeClips dur as bs cs).map (·.image)
          = as.take (min as.length (min bs.length cs.length))
      ∧ (makeClips dur as bs cs).map (·.audioPath)
          = bs.take (min as.length (min bs.length cs.length))
      ∧ (makeClips dur as bs cs).map (·.caption)
          = cs.take (min as.length (min bs.length cs.length))
      ∧ (makeClips dur as bs cs).map (·.duration)
          = (bs.take (min as.length (min bs.length cs.length))).map dur
  | [], bs, cs => by cases bs <;> cases cs <;> simp [makeClips]
  | a :: as, [], cs => by cases cs <;> simp [makeClips]
  | a :: as, b :: bs, [] => by simp [makeClips]
  | a :: as, b :: bs, c :: cs => by
    obtain ⟨h0, h1, h2, h3, h4⟩ := makeClips_spec dur as bs cs
    simp [makeClips, Nat.succ_min_succ, h0, h1, h2, h3, h4]

/-- The clip list of the assembled video is the zipped clip list, whatever
the music option does. -/
lemma create_video_clips (dur : String → ℚ) (fx : String → Bool)
    (imgs auds subs : List String) (music : Option String) :
    (create_video dur fx imgs auds subs music).clips = makeClips dur imgs auds subs := by
  cases music with
  | none => rfl
  | some p =>
    simp only [create_video]
    split <;> rfl

/-- C1 (counterexample): the claim says that whenever the completion content
splits into fewer than 3 NON-EMPTY lines, the segmenter falls back to the
single original story. The code only counts lines, blank ones included
(app.py line 36: `len(scenes_text) < 3`). Content `"a\n\nb"` has 3 lines of
which only 2 are non-empty, yet the segmenter returns the 3 raw lines, not
the one-caption fallback. -/
theorem segment_fallback_nonempty_lines_counterexample :
    ((pySplitLinesS (pyStripS "a\n\nb")).filter (fun l => !l.isEmpty)).length < 3
    ∧ segmentScenes "story" "a\n\nb" ≠ ["story"]
    ∧ segmentScenes "story" "a\n\nb" = ["a", "", "b"] := by
  refine ⟨by decide, by decide, by decide⟩

/-- C1 (amended): whenever the completion content, stripped and split on
line boundaries, yields fewer than 3 lines (blank lines counted), the
segmenter returns exactly one caption equal to the original story text, and
it does not fail in this case. -/
theorem segment_fallback_on_fewer_than_three_lines (p c : String)
    (h : (pySplitLinesS (pyStripS c)).length < 3) :
    segmentScenes p c = [p] := by
  simp only [segmentScenes]
  rw [if_pos h]

/-- Witness for C1 (amended) at a single-line response. -/
theorem segment_fallback_on_fewer_than_three_lines_witness :
    (pySplitLinesS (pyStripS "one line")).length < 3
    ∧ segmentScenes "story" "one line" = ["story"] :=
  ⟨by decide, segment_fallback_on_fewer_than_three_lines "story" "one line" (by decide)⟩

/-- C7: when a background-music path is supplied but `os.path.exists` is
false at it, `create_video` behaves exactly as in the no-music case:
same clips, same narration-only audio, no failure. -/
theorem music_file_missing_ignored (dur : String → ℚ) (fx : String → Bool)
    (imgs auds subs : List String) (p : String) (h : fx p = false) :
    create_video dur fx imgs auds subs (some p)
      = create_video dur fx imgs auds subs none := by
  simp [create_video, h]

/-- Witness for C7: a concrete run with a missing music file. -/
theorem music_file_missing_ignored_witness :
    create_video (fun _ => (1 : ℚ)) (fun _ => false)
        ["i0.png"] ["a0.mp3"] ["c0"] (some "bg.mp3")
      = create_video (fun _ => (1 : ℚ)) (fun _ => false) ["i0.png"] ["a0.mp3"] ["c0"] none :=
  music_file_missing_ignored (fun _ => (1 : ℚ)) (fun _ => false)
    ["i0.png"] ["a0.mp3"] ["c0"] "bg.mp3" rfl

/-- C8: for every non-empty story on which the completion request succeeds,
segmentation returns a non-empty caption list, whatever the response content
is (either the fallback singleton or the at-least-one split lines). -/
theorem segmentation_nonempty (sv : Services) (story content : String)
    (_hstory : story ≠ "") (_hok : sv.completion story = Except.ok content) :
    segmentScenes story content ≠ [] :=
  segmentScenes_ne_nil story content

/-- Witness for C8 at a concrete successful completion. -/
theorem segmentation_nonempty_witness :
    segmentScenes "story" "line one\nline two\nline three" ≠ [] :=
  segmentation_nonempty svOk "story" "line one\nline two\nline three" (by decide) rfl

/-- C10: a completion response with at least 3 lines of which some are
blank (scenes separated by blank lines) makes the segmenter emit empty-string
captions, and the asset loop then uses the empty string both as the
image-generation prompt and as the text-to-speech input for those scenes. -/
theorem blank_lines_become_empty_captions :
    (pySplitLinesS (pyStripS "First scene\n\nSecond scene\n\nThird scene")).length ≥ 3
    ∧ segmentScenes "story" "First scene\n\nSecond scene\n\nThird scene"
        = ["First scene", "", "Second scene", "", "Third scene"]
    ∧ "" ∈ segmentScenes "story" "First scene\n\nSecond scene\n\nThird scene"
    ∧ (genAssetsE svOk "/scratch"
          (segmentScenes "story" "First scene\n\nSecond scene\n\nThird scene").enum).map
        (fun assets => (assets.map (·.prompt), assets.map (·.ttsText)))
      = Except.ok (["First scene", "", "Second scene", "", "Third scene"],
                   ["First scene", "", "Second scene", "", "Third scene"]) := by
  refine ⟨by decide, by decide, by decide, by rfl⟩

/-- C2: a run of the asset loop over `N` enumerated captions that hits no
upstream error returns exactly `N` image paths `scene_i.png` and `N` audio
paths `scene_i.mp3` in the scratch directory, index-aligned and in order,
and hands the input captions back unchanged as both prompts and speech
texts (the returned subtitles). -/
theorem asset_generator_index_aligned (sv : Services) (d : String)
    (scenes : List String) (assets : List SceneAsset)
    (h : genAssetsE sv d scenes.enum = Except.ok assets) :
    assets.map (·.imgPath)
      = (List.range scenes.length).map (fun i => osPathJoin d ("scene_" ++ toString i ++ ".png"))
    ∧ assets.map (·.audioPath)
      = (List.range scenes.length).map (fun i => osPathJoin d ("scene_" ++ toString i ++ ".mp3"))
    ∧ assets.map (·.prompt) = scenes
    ∧ assets.map (·.ttsText) = scenes
    ∧ assets.length = scenes.length := by
  obtain ⟨h1, h2, h3, h4⟩ := genAssetsE_ok_spec sv d scenes.enum assets h
  have epng : scenes.enum.map (fun p => osPathJoin d ("scene_" ++ toString p.1 ++ ".png"))
      = (List.range scenes.length).map (fun i => osPathJoin d ("scene_" ++ toString i ++ ".png")) := by
    rw [← List.enum_map_fst scenes, List.map_map]
    rfl
  have emp3 : scenes.enum.map (fun p => osPathJoin d ("scene_" ++ toString p.1 ++ ".mp3"))
      = (List.range scenes.length).map (fun i => osPathJoin d ("scene_" ++ toString i ++ ".mp3")) := by
    rw [← List.enum_map_fst scenes, List.map_map]
    rfl
  have esnd : scenes.enum.map Prod.snd = scenes := List.enum_map_snd scenes
  refine ⟨h3.trans epng, h4.trans emp3, h1.trans esnd, h2.trans esnd, ?_⟩
  have := congrArg List.length (h1.trans esnd)
  simpa using this

/-- The asset list produced by a two-caption run against `svOk`. -/
def assetsAB : List SceneAsset :=
  [{ prompt := "alpha", ttsText := "alpha",
     imgPath := "/tmp/scene_0.png", audioPath := "/tmp/scene_0.mp3" },
   { prompt := "beta", ttsText := "beta",
     imgPath := "/tmp/scene_1.png", audioPath := "/tmp/scene_1.mp3" }]

/-- Witness for C2 at a concrete two-caption run. -/
theorem asset_generator_index_aligned_witness :
    genAssetsE svOk "/tmp" (["alpha", "beta"]).enum = Except.ok assetsAB
    ∧ assetsAB.map (·.prompt) = ["alpha", "beta"]
    ∧ assetsAB.map (·.ttsText) = ["alpha", "beta"]
    ∧ assetsAB.length = 2 := by
  have hok : genAssetsE svOk "/tmp" (["alpha", "beta"]).enum = Except.ok assetsAB := by rfl
  obtain ⟨h1, h2, h3, h4, h5⟩ :=
    asset_generator_index_aligned svOk "/tmp" ["alpha", "beta"] assetsAB hok
  exact ⟨hok, h3, h4, h5⟩

/-- C3: on index-aligned, same-length, non-empty inputs the assembled video
consists of the scenes in ascending index order, every scene's image shown
for exactly its audio's duration, and the total duration is the sum of the
per-scene audio durations. -/
theorem video_duration_is_sum_of_audio (dur : String → ℚ) (fx : String → Bool)
    (imgs auds subs : List String) (music : Option String)
    (h1 : imgs.length = auds.length) (h2 : auds.length = subs.length)
    (_h3 : imgs ≠ []) :
    (create_video dur fx imgs auds subs music).clips.map (·.image) = imgs
    ∧ (create_video dur fx imgs auds subs music).clips.map (·.audioPath) = auds
    ∧ (create_video dur fx imgs auds subs music).clips.map (·.caption) = subs
    ∧ (create_video dur fx imgs auds subs music).clips.map (·.duration) = auds.map dur
    ∧ totalDuration (create_video dur fx imgs auds subs music).clips = (auds.map dur).sum := by
  obtain ⟨g0, g1, g2, g3, g4⟩ := makeClips_spec dur imgs auds subs
  have hmin : min imgs.length (min auds.length subs.length) = imgs.length := by
    omega
  rw [hmin] at g1 g2 g3 g4
  rw [h1] at g2 g4
  rw [h1, h2] at g3
  simp only [List.take_length] at g1 g2 g3 g4
  rw [create_video_clips]
  exact ⟨g1, g2, g3, g4, by simp [totalDuration, g4]⟩

/-- The concrete duration assignment used by the C3 witness. -/
def durW : String → ℚ := fun s => if s = "a0.mp3" then 2 else 3

/-- Witness for C3 at a concrete two-scene bundle: durations 2 and 3 give a
5-second video. -/
theorem video_duration_is_sum_of_audio_witness :
    totalDuration (create_video durW (fun _ => false)
        ["i0.png", "i1.png"] ["a0.mp3", "a1.mp3"] ["c0", "c1"] none).clips = 5 := by
  have h := video_duration_is_sum_of_audio durW (fun _ => false)
      ["i0.png", "i1.png"] ["a0.mp3", "a1.mp3"] ["c0", "c1"] none rfl rfl (by decide)
  rw [h.2.2.2.2]
  have hne : ("a1.mp3" : String) ≠ "a0.mp3" := by decide
  simp [durW, hne]
  norm_num

/-- C9: called on lists of unequal lengths, `create_video` raises no error:
it zips the three lists down to the shortest, assembling exactly
`min` of the lengths many scenes from the aligned prefixes and silently
dropping the surplus entries of the longer lists. -/
theorem assembler_truncates_to_min (dur : String → ℚ) (fx : String → Bool)
    (imgs auds subs : List String) (music : Option String) :
    (create_video dur fx imgs auds subs music).clips.length
      = min imgs.length (min auds.length subs.length)
    ∧ (create_video dur fx imgs auds subs music).clips.map (·.image)
      = imgs.take (min imgs.length (min auds.length subs.length))
    ∧ (create_video dur fx imgs auds subs music).clips.map (·.audioPath)
      = auds.take (min imgs.length (min auds.length subs.length))
    ∧ (create_video dur fx imgs auds subs music).clips.map (·.caption)
      = subs.take (min imgs.length (min auds.length subs.length)) := by
  obtain ⟨g0, g1, g2, g3, _⟩ := makeClips_spec dur imgs auds subs
  rw [create_video_clips]
  exact ⟨g0, g1, g2, g3⟩

/-- C4: when a music path is supplied and the file exists, the final audio is
the narration track mixed (composited, not replaced) with the music track
attenuated to 10% volume and looped to exactly the concatenated video's
duration; the sub-clips (and with them the narration) are the same as in the
no-music case; and with no music path the audio is exactly the concatenated
per-scene narration. -/
theorem background_music_mixed (dur : String → ℚ) (fx : String → Bool)
    (imgs auds subs : List String) (p : String) (h : fx p = true) :
    (create_video dur fx imgs auds subs (some p)).audio
      = AudioTrack.composite
          [AudioTrack.concatNarration ((makeClips dur imgs auds subs).map (·.audioPath)),
           AudioTrack.attenuatedLoop p (1 / 10) (totalDuration (makeClips dur imgs auds subs))]
    ∧ (create_video dur fx imgs auds subs (some p)).clips
        = (create_video dur fx imgs auds subs none).clips
    ∧ (create_video dur fx imgs auds subs none).audio
        = AudioTrack.concatNarration ((makeClips dur imgs auds subs).map (·.audioPath)) := by
  refine ⟨by simp [create_video, h], ?_, by simp [create_video]⟩
  rw [create_video_clips, create_video_clips]

/-- Witness for C4: with an existing music file and no scenes, the final
audio is the empty narration mixed with the attenuated looped music. -/
theorem background_music_mixed_witness :
    (create_video (fun _ => (1 : ℚ)) (fun _ => true) [] [] [] (some "music.mp3")).audio
      = AudioTrack.composite
          [AudioTrack.concatNarration [],
           AudioTrack.attenuatedLoop "music.mp3" (1 / 10) 0] := by
  have h := background_music_mixed (fun _ => (1 : ℚ)) (fun _ => true) [] [] [] "music.mp3" rfl
  simpa [makeClips, totalDuration] using h.1

/-- C5: no pipeline stage catches an error: an error raised by any stage
propagates unchanged through `pipelineE` to the single top-level handler,
which shows one `Error: ...` message; in that case no video (partial or
otherwise) is shown. The first conjunct exhibits the propagation from the
innermost stage (the completion request) to the top. -/
theorem errors_propagate_uncaught (sv : Services) (dur : String → ℚ) (fx : String → Bool)
    (story tempDir : String) (music : Option String) (e : String) :
    (sv.completion story = Except.error e →
      pipelineE sv dur fx story tempDir music = Except.error e)
    ∧ (pipelineE sv dur fx story tempDir music = Except.error e →
      runApp sv dur fx story tempDir music = UIOutcome.errorShown ("Error: " ++ e)
      ∧ ∀ q, runApp sv dur fx story tempDir music ≠ UIOutcome.videoShown q) := by
  constructor
  · intro h
    simp [pipelineE, generate_scene_images_and_audio, h]
  · intro h
    constructor
    · simp [runApp, h]
    · intro q
      simp [runApp, h]

/-- Witness for C5: a failing completion request surfaces as the single
top-level error message. -/
theorem errors_propagate_uncaught_witness :
    runApp svCompletionFails (fun _ => (1 : ℚ)) (fun _ => false) "story" "/tmp" none
      = UIOutcome.errorShown "Error: boom" := by
  have h := (errors_propagate_uncaught svCompletionFails (fun _ => (1 : ℚ)) (fun _ => false)
      "story" "/tmp" none "boom").2 rfl
  exact h.1

/-- C6: if any of the three configuration values is missing at process
start, the whole script halts at startup with the fixed error message,
before any run; if all three are present (non-empty), the pipeline runs and
its outcome is `runApp` applied to the services and run inputs only — no
pipeline operation re-reads or re-checks the credentials. -/
theorem startup_credential_gate (s : Secrets) (sv : Services) (dur : String → ℚ)
    (fx : String → Bool) (story tempDir : String) (music : Option String) :
    ((s.openaiApiKey = none ∨ s.elevenlabsApiKey = none ∨ s.voiceId = none) →
      program s sv dur fx story tempDir music = ProgramResult.haltedAtStartup secretsErrorMsg)
    ∧ ((pyTruthy s.openaiApiKey = true ∧ pyTruthy s.elevenlabsApiKey = true
          ∧ pyTruthy s.voiceId = true) →
      program s sv dur fx story tempDir music
        = ProgramResult.ranPipeline (runApp sv dur fx story tempDir music)) := by
  constructor
  · intro h
    rcases h with h | h | h <;> simp [program, appStartup, h, pyTruthy]
  · rintro ⟨ha, hb, hc⟩
    simp [program, appStartup, ha, hb, hc]

/-- Witness for C6: complete credentials run the pipeline; a missing
credential halts at startup. -/
theorem startup_credential_gate_witness :
    program ⟨some "k1", some "k2", some "v"⟩ svOk (fun _ => (1 : ℚ)) (fun _ => false)
        "story" "/tmp" none
      = ProgramResult.ranPipeline
          (runApp svOk (fun _ => (1 : ℚ)) (fun _ => false) "story" "/tmp" none)
    ∧ program ⟨none, some "k2", some "v"⟩ svOk (fun _ => (1 : ℚ)) (fun _ => false)
        "story" "/tmp" none
      = ProgramResult.haltedAtStartup secretsErrorMsg :=
  ⟨(startup_credential_gate ⟨some "k1", some "k2", some "v"⟩ svOk (fun _ => (1 : ℚ))
      (fun _ => false) "story" "/tmp" none).2 ⟨by decide, by decide, by decide⟩,
   (startup_credential_gate ⟨none, some "k2", some "v"⟩ svOk (fun _ => (1 : ℚ))
      (fun _ => false) "story" "/tmp" none).1 (Or.inl rfl)⟩
